import Mathlib

/-!
Shallow embedding of the pipeline-step-to-cluster-resource compiler in
engine/kube/util.go, together with the engine data model it consumes and
the fragment of the target cluster schema it produces.  Definitions mirror
the source functions one for one; theorems settle the specification claims.
-/

set_option maxHeartbeats 1000000

/-! ### The engine data model

The engine package of this repository is not part of the sources given here;
its record shapes and lookup helpers are modelled from the specification
(section 3: every referenceable entity carries a Name used for lookup and a
stable UID; section 6: the specification exposes lookup of secrets, files and
volumes by name, returning a found or not-found result). -/

namespace engine

/-- Modelled from the spec: the identity block every referenceable entity
carries, a human readable Name used for lookup and labels, and a stable
opaque UID used as the cluster object resource name, plus namespace and
labels for the top level metadata. -/
structure Metadata where
  uid : String := ""
  name : String := ""
  ns : String := ""
  labels : List (String × String) := []
deriving DecidableEq, Repr

/-- Modelled from the spec: the declared image pull policy of a step. -/
inductive PullPolicy where
  | pullDefault
  | pullAlways
  | pullIfNotExists
  | pullNever
deriving DecidableEq, Repr

/-- Modelled from the spec: a declared port, container port plus optional
host exposed port. -/
structure Port where
  port : Int := 0
  host : Int := 0
deriving DecidableEq, Repr

/-- Modelled from the spec: one registry credential record; only its
presence matters to the compiler. -/
structure DockerAuth where
  address : String := ""
  username : String := ""
  password : String := ""
deriving DecidableEq, Repr

/-- Modelled from the spec: the container facing fields of a step. -/
structure DockerStep where
  image : String := ""
  pullPolicy : PullPolicy := .pullDefault
  command : List String := []
  args : List String := []
  ports : List Port := []
  privileged : Bool := false
deriving DecidableEq, Repr

/-- Modelled from the spec: specification level registry credentials. -/
structure DockerSpec where
  auths : List DockerAuth := []
deriving DecidableEq, Repr

/-- Modelled from the spec: cpu in milli units and memory in bytes, both
signed integers. -/
structure ResourceObject where
  cpu : Int := 0
  memory : Int := 0
deriving DecidableEq, Repr

/-- Modelled from the spec: optional limits and requests of a step. -/
structure Resources where
  limits : Option ResourceObject := none
  requests : Option ResourceObject := none
deriving DecidableEq, Repr

/-- Modelled from the spec: identity plus a single opaque string value. -/
structure Secret where
  metadata : Metadata := {}
  data : String := ""
deriving DecidableEq, Repr

/-- Modelled from the spec: a named piece of config data. -/
structure File where
  metadata : Metadata := {}
  data : String := ""
deriving DecidableEq, Repr

/-- Modelled from the spec: the HostPath variant payload, an explicit host
directory. -/
structure HostPathSource where
  path : String := ""
deriving DecidableEq, Repr

/-- Modelled from the spec: the EmptyDir variant payload. -/
structure EmptyDirSource where
  medium : String := ""
deriving DecidableEq, Repr

/-- Modelled from the spec: one item of a Secret typed volume, a key, a
path and an access mode. -/
structure SecretItem where
  key : String := ""
  path : String := ""
  mode : Option Int := none
deriving DecidableEq, Repr

/-- Modelled from the spec: the Secret variant payload, a named secret with
a list of items to be exposed as individual files. -/
structure VolumeSecretSource where
  name : String := ""
  items : List SecretItem := []
deriving DecidableEq, Repr

/-- Modelled from the spec: a specification level volume, a tagged variant
of EmptyDir, HostPath or Secret, represented as optional payloads as in the
source. -/
structure Volume where
  metadata : Metadata := {}
  emptyDir : Option EmptyDirSource := none
  hostPath : Option HostPathSource := none
  secret : Option VolumeSecretSource := none
deriving DecidableEq, Repr

/-- Modelled from the spec: a secret mount on a step, naming a referenced
secret and the environment variable to expose it as. -/
structure SecretVar where
  name : String := ""
  env : String := ""
deriving DecidableEq, Repr

/-- Modelled from the spec: a file mount on a step, naming a referenced
file plus a mount path and an access mode. -/
structure FileMount where
  name : String := ""
  path : String := ""
  mode : Int := 0
deriving DecidableEq, Repr

/-- Modelled from the spec: a volume mount on a step, naming a referenced
volume plus a mount path. -/
structure VolumeMount where
  name : String := ""
  path : String := ""
deriving DecidableEq, Repr

/-- Modelled from the spec: one unit of pipeline work.  The declared
environment is a key, value map; it is represented as an association list
whose keys are unique in well formed input. -/
structure Step where
  metadata : Metadata := {}
  envs : List (String × String) := []
  files : List FileMount := []
  secrets : List SecretVar := []
  volumes : List VolumeMount := []
  docker : DockerStep := {}
  resources : Option Resources := none
  workingDir : String := ""
deriving DecidableEq, Repr

/-- Modelled from the spec: the full pipeline description, root for all
name based lookups. -/
structure Spec where
  metadata : Metadata := {}
  docker : DockerSpec := {}
  files : List File := []
  secrets : List Secret := []
  steps : List Step := []
  volumes : List Volume := []
deriving DecidableEq, Repr

/-- Modelled from the spec: lookup of a secret by its declared name,
returning a found or not-found result, never an error. -/
def LookupSecret (spec : Spec) (name : String) : Option Secret :=
  spec.secrets.find? (fun s => s.metadata.name == name)

/-- Modelled from the spec: lookup of a file by its declared name. -/
def LookupFile (spec : Spec) (name : String) : Option File :=
  spec.files.find? (fun f => f.metadata.name == name)

/-- Modelled from the spec: lookup of a volume by its declared name. -/
def LookupVolume (spec : Spec) (name : String) : Option Volume :=
  spec.volumes.find? (fun v => v.metadata.name == name)

end engine

/-! ### The target cluster schema

The fragment of the kubernetes core v1 schema that util.go produces.  Maps
are represented as association lists in insertion order; pointer valued
fields become Option. -/

namespace v1

/-- Object metadata: resource name, namespace and labels. -/
structure ObjectMeta where
  name : String := ""
  ns : String := ""
  labels : List (String × String) := []
deriving DecidableEq, Repr

/-- A field reference resolved by the cluster at schedule time. -/
structure ObjectFieldSelector where
  fieldPath : String := ""
deriving DecidableEq, Repr

/-- A reference to an object in the same namespace. -/
structure LocalObjectReference where
  name : String := ""
deriving DecidableEq, Repr

/-- A reference to one key of a secret. -/
structure SecretKeySelector where
  localObjectReference : LocalObjectReference := {}
  key : String := ""
  optional : Option Bool := none
deriving DecidableEq, Repr

/-- The indirection an environment variable value may come from. -/
structure EnvVarSource where
  fieldRef : Option ObjectFieldSelector := none
  secretKeyRef : Option SecretKeySelector := none
deriving DecidableEq, Repr

/-- One environment variable: literal value or deferred source. -/
structure EnvVar where
  name : String := ""
  value : String := ""
  valueFrom : Option EnvVarSource := none
deriving DecidableEq, Repr

/-- A cluster secret object. -/
structure Secret where
  metadata : ObjectMeta := {}
  type : String := ""
  stringData : List (String × String) := []
deriving DecidableEq, Repr

/-- Projection of one data key onto a relative file path. -/
structure KeyToPath where
  key : String := ""
  path : String := ""
  mode : Option Int := none
deriving DecidableEq, Repr

/-- A volume sourced from a config map. -/
structure ConfigMapVolumeSource where
  localObjectReference : LocalObjectReference := {}
  items : List KeyToPath := []
  optional : Option Bool := none
deriving DecidableEq, Repr

/-- A volume backed by a directory on the host, with a creation policy. -/
structure HostPathVolumeSource where
  path : String := ""
  type : Option String := none
deriving DecidableEq, Repr

/-- A volume sourced from a secret. -/
structure SecretVolumeSource where
  secretName : String := ""
  items : List KeyToPath := []
deriving DecidableEq, Repr

/-- A pod volume: exactly one source is set by this compiler. -/
structure Volume where
  name : String := ""
  hostPath : Option HostPathVolumeSource := none
  configMap : Option ConfigMapVolumeSource := none
  secret : Option SecretVolumeSource := none
deriving DecidableEq, Repr

/-- A mount of a named volume into a container. -/
structure VolumeMount where
  name : String := ""
  mountPath : String := ""
  subPath : String := ""
deriving DecidableEq, Repr

/-- Container level port exposure. -/
structure ContainerPort where
  containerPort : Int := 0
deriving DecidableEq, Repr

/-- The int branch of the int-or-string union; util.go only sets IntVal. -/
structure IntOrString where
  intVal : Int := 0
deriving DecidableEq, Repr

/-- One service port. -/
structure ServicePort where
  name : String := ""
  port : Int := 0
  targetPort : IntOrString := {}
deriving DecidableEq, Repr

/-- The serialization scaling family of a quantity. -/
inductive QuantityFormat where
  | binarySI
  | decimalSI
deriving DecidableEq, Repr

/-- A resource quantity: an integer amount, a flag recording whether the
amount is in milli units, and its scaling format. -/
structure Quantity where
  value : Int := 0
  milli : Bool := false
  format : QuantityFormat := .binarySI
deriving DecidableEq, Repr

/-- Mirrors resource.NewQuantity: an amount in whole units. -/
def newQuantity (v : Int) (f : QuantityFormat) : Quantity :=
  { value := v, milli := false, format := f }

/-- Mirrors resource.NewMilliQuantity: an amount in milli units. -/
def newMilliQuantity (v : Int) (f : QuantityFormat) : Quantity :=
  { value := v, milli := true, format := f }

/-- Limits and requests maps, absent until assigned. -/
structure ResourceRequirements where
  limits : Option (List (String × Quantity)) := none
  requests : Option (List (String × Quantity)) := none
deriving DecidableEq, Repr

/-- Container security context; only the privilege flag is set. -/
structure SecurityContext where
  privileged : Option Bool := none
deriving DecidableEq, Repr

/-- One container of a pod. -/
structure Container where
  name : String := ""
  image : String := ""
  imagePullPolicy : String := ""
  command : List String := []
  args : List String := []
  workingDir : String := ""
  securityContext : Option SecurityContext := none
  env : List EnvVar := []
  volumeMounts : List VolumeMount := []
  ports : List ContainerPort := []
  resources : ResourceRequirements := {}
deriving DecidableEq, Repr

/-- The pod specification fields util.go assembles. -/
structure PodSpec where
  automountServiceAccountToken : Option Bool := none
  restartPolicy : String := ""
  containers : List Container := []
  imagePullSecrets : List LocalObjectReference := []
  volumes : List Volume := []
deriving DecidableEq, Repr

/-- A pod object. -/
structure Pod where
  metadata : ObjectMeta := {}
  spec : PodSpec := {}
deriving DecidableEq, Repr

/-- The service specification fields util.go assembles. -/
structure ServiceSpec where
  type : String := ""
  selector : List (String × String) := []
  ports : List ServicePort := []
deriving DecidableEq, Repr

/-- A service object. -/
structure Service where
  metadata : ObjectMeta := {}
  spec : ServiceSpec := {}
deriving DecidableEq, Repr

/-- A namespace object. -/
structure Namespace where
  metadata : ObjectMeta := {}
deriving DecidableEq, Repr

end v1

/-! ### Go standard library helpers used by util.go -/

namespace golib

/-- Conversion to the 32 bit signed integer type, with wrap around; the
literals are 2 to the 31 and 2 to the 32. -/
def toInt32 (n : Int) : Int :=
  (n + 2147483648) % 4294967296 - 2147483648

/-- Splits a character list on slash characters; mirrors splitting a string
on the slash separator. -/
def splitSlash : List Char → List (List Char)
  | [] => [[]]
  | c :: rest =>
    if c = '/' then [] :: splitSlash rest
    else
      match splitSlash rest with
      | [] => [[c]]
      | h :: t => (c :: h) :: t

/-- Joins components with slash characters. -/
def joinSlash : List (List Char) → List Char
  | [] => []
  | [c] => c
  | c :: rest => c ++ '/' :: joinSlash rest

/-- The rewriting core of path.Clean: processes slash separated components
against a stack, dropping empty and single dot components and resolving
double dot components lexically. -/
def cleanComponents (rooted : Bool) :
    List (List Char) → List (List Char) → List (List Char)
  | acc, [] => acc.reverse
  | acc, c :: rest =>
    if c = [] ∨ c = ['.'] then
      cleanComponents rooted acc rest
    else if c = ['.', '.'] then
      match acc with
      | [] =>
        if rooted then cleanComponents rooted [] rest
        else cleanComponents rooted [['.', '.']] rest
      | a :: as' =>
        if a = ['.', '.'] then cleanComponents rooted (['.', '.'] :: a :: as') rest
        else cleanComponents rooted as' rest
    else
      cleanComponents rooted (c :: acc) rest

/-- Clean on character lists. -/
def goPathCleanChars (l : List Char) : List Char :=
  match l with
  | [] => ['.']
  | c0 :: _ =>
    let rooted := c0 = '/'
    let comps := cleanComponents rooted [] (splitSlash l)
    if rooted then '/' :: joinSlash comps
    else if comps = [] then ['.']
    else joinSlash comps

/-- Mirrors Go path.Clean (equal to filepath.Clean on slash separated
systems): the shortest lexically equivalent path. -/
def goPathClean (p : String) : String :=
  ⟨goPathCleanChars p.data⟩

/-- Mirrors Go filepath.Join on slash separated systems: empty elements are
ignored, the rest are joined with a slash and cleaned; all empty gives the
empty string. -/
def goFilepathJoin (elems : List String) : String :=
  match (elems.map String.data).filter (fun e => e ≠ []) with
  | [] => ""
  | l => ⟨goPathCleanChars (joinSlash l)⟩

/-- Mirrors Go path.Base: the last element of the path, after dropping
trailing slashes; the empty path gives a dot and an all slash path gives a
slash. -/
def goPathBase (p : String) : String :=
  match p.data with
  | [] => "."
  | l =>
    let l1 := (l.reverse.dropWhile (fun c => c = '/')).reverse
    if l1 = [] then "/"
    else ⟨(splitSlash l1).getLastD l1⟩

/-- Mirrors Go path.Dir: everything up to and including the final slash,
cleaned. -/
def goPathDir (p : String) : String :=
  ⟨goPathCleanChars ((p.data.reverse.dropWhile (fun c => c ≠ '/')).reverse)⟩

/-- Mirrors strconv.ParseBool as used in util.go, where a parse error is
discarded and the zero value false is kept: exactly the six true literals
parse to true and every other string yields false. -/
def parseBool (s : String) : Bool :=
  ["1", "t", "T", "true", "TRUE", "True"].contains s

end golib

/-! ### The compiler: engine/kube/util.go

Each definition below embeds the function of the same name in
engine/kube/util.go.  Go maps iterated by range are modelled as association
lists traversed in order; nil slice and empty slice are both the empty
list. -/

namespace kube

open golib

/-- The reserved control environment key of util.go. -/
def envAutomountServiceAccountToken : String :=
  "PLUGIN_AUTOMOUNTSERVICEACCOUNTTOKEN"

/-- Embeds toEnv: declared pairs except the reserved key, then the
synthetic node name entry, then one deferred secret reference per
resolving secret mount. -/
def toEnv (spec : engine.Spec) (step : engine.Step) : List v1.EnvVar :=
  ((step.envs.filter (fun kv => kv.1 ≠ envAutomountServiceAccountToken)).map
    (fun kv => { name := kv.1, value := kv.2 }))
  ++ [{ name := "KUBERNETES_NODE",
        valueFrom := some { fieldRef := some { fieldPath := "spec.nodeName" } } }]
  ++ step.secrets.filterMap (fun secret =>
      match engine.LookupSecret spec secret.name with
      | none => none
      | some sec => some
          { name := secret.env,
            valueFrom := some
              { secretKeyRef := some
                  { localObjectReference := { name := sec.metadata.uid },
                    key := sec.metadata.uid,
                    optional := some true } } })

/-- Embeds toPullPolicy: the one to one enum mapping with IfNotPresent as
the default. -/
def toPullPolicy (from' : engine.PullPolicy) : String :=
  match from' with
  | .pullAlways => "Always"
  | .pullNever => "Never"
  | .pullIfNotExists => "IfNotPresent"
  | _ => "IfNotPresent"

/-- Embeds toSecret: one opaque cluster secret named by the UID whose sole
data entry maps that same UID to the value. -/
def toSecret (_spec : engine.Spec) (from' : engine.Secret) : v1.Secret :=
  { metadata := { name := from'.metadata.uid },
    type := "Opaque",
    stringData := [(from'.metadata.uid, from'.data)] }

/-- Embeds toConfigVolumes: one config map volume per resolving file
mount, named by the file UID, projecting the UID key onto the base name of
the declared mount path with the declared mode. -/
def toConfigVolumes (spec : engine.Spec) (step : engine.Step) : List v1.Volume :=
  step.files.filterMap (fun mount =>
    match engine.LookupFile spec mount.name with
    | none => none
    | some file => some
        { name := file.metadata.uid,
          configMap := some
            { localObjectReference := { name := file.metadata.uid },
              optional := some false,
              items := [{ key := file.metadata.uid,
                          path := goPathBase mount.path,
                          mode := some (toInt32 mount.mode) }] } })

/-- Embeds toConfigMounts: one mount per resolving file mount, named by
the file UID and targeting the directory of the declared mount path. -/
def toConfigMounts (spec : engine.Spec) (step : engine.Step) : List v1.VolumeMount :=
  step.files.filterMap (fun mount =>
    match engine.LookupFile spec mount.name with
    | none => none
    | some file => some
        { name := file.metadata.uid,
          mountPath := goPathDir mount.path })

/-- Embeds toHostPathVolume: for EmptyDir the path is the deterministic
temp directory under /tmp/drone, otherwise the declared host path; the
type is always directory or create.  (util.go only calls this when one of
the two variants is set; the residual branch keeps the function total.) -/
def toHostPathVolume (spec : engine.Spec) (vol : engine.Volume) : v1.Volume :=
  let path :=
    match vol.emptyDir with
    | some _ =>
        goFilepathJoin ["/tmp", "drone", spec.metadata.ns, vol.metadata.uid]
    | none =>
        match vol.hostPath with
        | some hp => hp.path
        | none => ""
  { name := vol.metadata.uid,
    hostPath := some { path := path, type := some "DirectoryOrCreate" } }

/-- Embeds toSecretVolumes: one cluster volume per item whose computed
lookup name resolves, named volumeUID dash itemKey and projecting the
looked up secret UID onto the item path with the item mode. -/
def toSecretVolumes (spec : engine.Spec) (vol : engine.Volume) : List v1.Volume :=
  match vol.secret with
  | none => []
  | some vsec =>
    vsec.items.filterMap (fun item =>
      let secretName := vol.metadata.name ++ "-" ++ vsec.name ++ "-" ++ item.key
      match engine.LookupSecret spec secretName with
      | none => none
      | some sec => some
          { name := vol.metadata.uid ++ "-" ++ item.key,
            secret := some
              { secretName := sec.metadata.uid,
                items := [{ key := sec.metadata.uid,
                            path := item.path,
                            mode := item.mode }] } })

/-- Embeds toVolumes: per resolving volume mount, a host path volume for
the EmptyDir and HostPath variants, the secret fan out for the Secret
variant, and nothing otherwise. -/
def toVolumes (spec : engine.Spec) (step : engine.Step) : List v1.Volume :=
  step.volumes.flatMap (fun mount =>
    match engine.LookupVolume spec mount.name with
    | none => []
    | some vol =>
      if vol.emptyDir.isSome ∨ vol.hostPath.isSome then
        [toHostPathVolume spec vol]
      else if vol.secret.isSome then
        toSecretVolumes spec vol
      else [])

/-- Embeds toVolumeMounts: per resolving volume mount, one mount per item
for the Secret variant (no lookup of the item secret) and a single mount
otherwise. -/
def toVolumeMounts (spec : engine.Spec) (step : engine.Step) : List v1.VolumeMount :=
  step.volumes.flatMap (fun mount =>
    match engine.LookupVolume spec mount.name with
    | none => []
    | some vol =>
      match vol.secret with
      | some vsec =>
        vsec.items.map (fun item =>
          { name := vol.metadata.uid ++ "-" ++ item.key,
            mountPath := mount.path ++ "/" ++ item.path,
            subPath := item.path })
      | none =>
        [{ name := vol.metadata.uid, mountPath := mount.path }])

/-- Embeds toPorts: container level exposure of each declared container
port. -/
def toPorts (step : engine.Step) : List v1.ContainerPort :=
  step.docker.ports.map (fun port => { containerPort := toInt32 port.port })

/-- Embeds toNamespace: one namespace object named and labeled from the
specification metadata. -/
def toNamespace (spec : engine.Spec) : v1.Namespace :=
  { metadata := { name := spec.metadata.ns, labels := spec.metadata.labels } }

/-- Embeds toResources: limits and requests maps assigned only when the
corresponding record is declared, each entry emitted only for a strictly
positive value, memory as a binary quantity and cpu as a decimal milli
quantity. -/
def toResources (step : engine.Step) : v1.ResourceRequirements :=
  let limits : Option (List (String × v1.Quantity)) :=
    match step.resources with
    | some res =>
      match res.limits with
      | some lim => some
          ((if lim.memory > 0 then
              [("memory", v1.newQuantity lim.memory .binarySI)] else [])
           ++ (if lim.cpu > 0 then
              [("cpu", v1.newMilliQuantity lim.cpu .decimalSI)] else []))
      | none => none
    | none => none
  let requests : Option (List (String × v1.Quantity)) :=
    match step.resources with
    | some res =>
      match res.requests with
      | some req => some
          ((if req.memory > 0 then
              [("memory", v1.newQuantity req.memory .binarySI)] else [])
           ++ (if req.cpu > 0 then
              [("cpu", v1.newMilliQuantity req.cpu .decimalSI)] else []))
      | none => none
    | none => none
  { limits := limits, requests := requests }

/-- Embeds toPod: one pod per step, merging volume lists and mount lists,
attaching the fixed pull secret reference exactly when registry
credentials exist, computing the automount flag from the reserved key with
false as the default, restart policy never, one container. -/
def toPod (spec : engine.Spec) (step : engine.Step) : v1.Pod :=
  let volumes := toVolumes spec step ++ toConfigVolumes spec step
  let mounts := toVolumeMounts spec step ++ toConfigMounts spec step
  let pullSecrets : List v1.LocalObjectReference :=
    if spec.docker.auths.length > 0 then [{ name := "docker-auth-config" }]
    else []
  let automount : Bool :=
    match step.envs.find? (fun kv => kv.1 == envAutomountServiceAccountToken) with
    | some kv => parseBool kv.2
    | none => false
  { metadata :=
      { name := step.metadata.uid,
        ns := step.metadata.ns,
        labels := step.metadata.labels },
    spec :=
      { automountServiceAccountToken := some automount,
        restartPolicy := "Never",
        containers :=
          [{ name := step.metadata.uid,
             image := step.docker.image,
             imagePullPolicy := toPullPolicy step.docker.pullPolicy,
             command := step.docker.command,
             args := step.docker.args,
             workingDir := step.workingDir,
             securityContext := some { privileged := some step.docker.privileged },
             env := toEnv spec step,
             volumeMounts := mounts,
             ports := toPorts step,
             resources := toResources step }],
        imagePullSecrets := pullSecrets,
        volumes := volumes } }

/-- Embeds toDNS: every underscore replaced by a hyphen.  The source uses
the generic string replace with an underscore pattern and a hyphen
replacement; for a single character pattern and replacement that is
exactly a character map. -/
def toDNS (i : String) : String :=
  ⟨i.data.map (fun c => if c = '_' then '-' else c)⟩

/-- Embeds toService: one service port per declared port, target port
defaulting to the container port when the host port is zero, cluster
internal type, selection by the fixed step name label, named by the
sanitized step name. -/
def toService (_spec : engine.Spec) (step : engine.Step) : v1.Service :=
  let ports := step.docker.ports.map (fun p =>
    let source := p.port
    let target := if p.host == 0 then source else p.host
    ({ name := toString source,
       port := toInt32 source,
       targetPort := { intVal := toInt32 target } } : v1.ServicePort))
  { metadata :=
      { name := toDNS step.metadata.name, ns := step.metadata.ns },
    spec :=
      { type := "ClusterIP",
        selector := [("io.drone.step.name", step.metadata.name)],
        ports := ports } }

/-- Modelled from the spec: the engine (outside the given sources) emits a
service for a step exactly when the step declares at least one port; with
no ports no service object is produced. -/
def emitService (spec : engine.Spec) (step : engine.Step) : Option v1.Service :=
  if step.docker.ports.isEmpty then none else some (toService spec step)

end kube

/-! ### Concrete fixtures

Small concrete specifications and steps used to witness or refute the
claims. -/

/-- A Secret typed volume declaring one item. -/
def c1vol : engine.Volume :=
  { metadata := { name := "vol1", uid := "vu1" },
    secret := some { name := "sec1", items := [{ key := "k1", path := "p1" }] } }

/-- A specification registering the volume but not the secret the item
refers to. -/
def c1spec : engine.Spec :=
  { volumes := [c1vol] }

/-- A step mounting the volume. -/
def c1mount : engine.VolumeMount :=
  { name := "vol1", path := "/mnt" }

/-- The step carrying the single volume mount. -/
def c1step : engine.Step :=
  { volumes := [c1mount] }

/-- A Secret typed volume declaring three items. -/
def c1wvsec : engine.VolumeSecretSource :=
  { name := "sec1",
    items := [{ key := "k1", path := "p1" }, { key := "k2", path := "p2" },
              { key := "k3", path := "p3" }] }

/-- The volume carrying the three items. -/
def c1wvol : engine.Volume :=
  { metadata := { name := "vol1", uid := "vu1" }, secret := some c1wvsec }

/-- A specification registering the volume and all three item secrets
under their computed lookup names. -/
def c1wspec : engine.Spec :=
  { secrets :=
      [{ metadata := { name := "vol1-sec1-k1", uid := "su1" }, data := "d1" },
       { metadata := { name := "vol1-sec1-k2", uid := "su2" }, data := "d2" },
       { metadata := { name := "vol1-sec1-k3", uid := "su3" }, data := "d3" }],
    volumes := [c1wvol] }

/-- A step mount of the three item volume. -/
def c1wmount : engine.VolumeMount :=
  { name := "vol1", path := "/mnt" }

/-- The step carrying the three item volume mount. -/
def c1wstep : engine.Step :=
  { volumes := [c1wmount] }

/-- A specification whose namespace is ns1. -/
def c2spec : engine.Spec :=
  { metadata := { ns := "ns1" } }

/-- An EmptyDir volume with UID vol-abc. -/
def c2vol : engine.Volume :=
  { metadata := { uid := "vol-abc" }, emptyDir := some {} }

/-- A HostPath volume declaring an explicit host directory. -/
def c2hvol : engine.Volume :=
  { metadata := { uid := "vol-h" }, hostPath := some { path := "/data/host" } }

/-- An empty specification: every lookup fails against it. -/
def c3spec : engine.Spec :=
  {}

/-- A step whose secret, file and volume mounts all dangle. -/
def c3step : engine.Step :=
  { envs := [("FOO", "bar")],
    secrets := [{ name := "nosec", env := "E" }],
    files := [{ name := "nofile", path := "/a/b" }],
    volumes := [{ name := "novol", path := "/v" }] }

/-- A step declaring a zero memory limit and a positive cpu limit. -/
def c4step : engine.Step :=
  { resources := some { limits := some { cpu := 500, memory := 0 } } }

/-- A specification registering one secret. -/
def c5spec : engine.Spec :=
  { secrets := [{ metadata := { name := "s1", uid := "su1" }, data := "x" }] }

/-- A step declaring a plain pair, the reserved control key, and a secret
mount. -/
def c5step : engine.Step :=
  { envs := [("FOO", "bar"), ("PLUGIN_AUTOMOUNTSERVICEACCOUNTTOKEN", "true")],
    secrets := [{ name := "s1", env := "SECRET_ENV" }] }

/-- An empty specification for the secret materializer. -/
def c6spec : engine.Spec :=
  {}

/-- A secret record with distinct name, UID and value. -/
def c6secret : engine.Secret :=
  { metadata := { name := "s", uid := "su" }, data := "v" }

/-- An empty specification for the service builder. -/
def c7spec : engine.Spec :=
  {}

/-- A step named with an underscore declaring one port with no host
port. -/
def c7step : engine.Step :=
  { metadata := { name := "my_step" },
    docker := { ports := [{ port := 8080, host := 0 }] } }

/-- A step declaring no ports. -/
def c7step0 : engine.Step :=
  { metadata := { name := "quiet" } }

/-- A specification declaring registry credentials. -/
def c8spec : engine.Spec :=
  { docker := { auths := [{ address := "reg" }] } }

/-- A step whose reserved control key value fails boolean parsing. -/
def c8step : engine.Step :=
  { envs := [("PLUGIN_AUTOMOUNTSERVICEACCOUNTTOKEN", "garbage")] }

/-- A file record. -/
def c9file : engine.File :=
  { metadata := { name := "f1", uid := "fu1" }, data := "cfg" }

/-- A specification registering the file. -/
def c9spec : engine.Spec :=
  { files := [c9file] }

/-- A file mount targeting a nested path with mode 420. -/
def c9mount : engine.FileMount :=
  { name := "f1", path := "/etc/conf/app.conf", mode := 420 }

/-- The step carrying the file mount. -/
def c9step : engine.Step :=
  { files := [c9mount] }

/-- A Secret typed volume whose single item has no matching secret. -/
def c10vol : engine.Volume :=
  { metadata := { name := "vol1", uid := "vu1" },
    secret := some { name := "sec1", items := [{ key := "k1", path := "p1" }] } }

/-- A specification registering the volume but no secrets at all. -/
def c10spec : engine.Spec :=
  { volumes := [c10vol] }

/-- A step mount of the volume. -/
def c10mount : engine.VolumeMount :=
  { name := "vol1", path := "/mnt" }

/-- The step carrying the volume mount. -/
def c10step : engine.Step :=
  { volumes := [c10mount] }

/-! ### Helper lemmas -/

/-- Conversion to 32 bits is the identity inside the 32 bit signed
range. -/
theorem toInt32_eq_self (n : Int) (h1 : -2147483648 ≤ n) (h2 : n < 2147483648) :
    golib.toInt32 n = n := by
  unfold golib.toInt32
  have h3 : (0 : Int) ≤ n + 2147483648 := by linarith
  have h4 : n + 2147483648 < 4294967296 := by linarith
  rw [Int.emod_eq_of_lt h3 h4]
  ring

/-- filterMap keeps every element when the function is total on the
list. -/
theorem length_filterMap_of_all_some {α β : Type} (f : α → Option β)
    (l : List α) (h : ∀ a ∈ l, (f a).isSome) :
    (l.filterMap f).length = l.length := by
  induction l with
  | nil => rfl
  | cons a t ih =>
    obtain ⟨b, hb⟩ := Option.isSome_iff_exists.mp (h a (List.mem_cons_self a t))
    simp [List.filterMap_cons, hb,
      ih (fun x hx => h x (List.mem_cons_of_mem a hx))]

/-- The length of a filterMap is the number of elements the function is
defined on. -/
theorem length_filterMap_eq_length_filter {α β : Type} (f : α → Option β)
    (l : List α) :
    (l.filterMap f).length = (l.filter (fun a => (f a).isSome)).length := by
  induction l with
  | nil => rfl
  | cons a t ih =>
    cases hfa : f a <;> simp [List.filterMap_cons, List.filter_cons, hfa, ih]

/-! ### Claim theorems -/

/-- Claim C6: every secret materializes to exactly one opaque cluster
secret object named by its UID whose data mapping contains exactly one
entry, the UID mapped to the value; secrets with distinct UIDs give
distinct objects, so no two secrets merge into one object. -/
theorem C6_secret_materializer (spec : engine.Spec) (s : engine.Secret) :
    (kube.toSecret spec s).metadata.name = s.metadata.uid ∧
    (kube.toSecret spec s).type = "Opaque" ∧
    (kube.toSecret spec s).stringData = [(s.metadata.uid, s.data)] ∧
    (kube.toSecret spec s).stringData.length = 1 ∧
    (∀ kv ∈ (kube.toSecret spec s).stringData, kv.1 = s.metadata.uid) ∧
    (∀ t : engine.Secret, t.metadata.uid ≠ s.metadata.uid →
      kube.toSecret spec t ≠ kube.toSecret spec s) := by
  refine ⟨rfl, rfl, rfl, rfl, ?_, ?_⟩
  · intro kv hkv
    simp [kube.toSecret] at hkv
    simp [hkv]
  · intro t ht hEq
    exact ht (congrArg (fun x => x.metadata.name) hEq)

/-- Witness for C6 at a concrete secret. -/
theorem C6_witness :
    (kube.toSecret c6spec c6secret).stringData = [("su", "v")] ∧
    (∀ kv ∈ (kube.toSecret c6spec c6secret).stringData, kv.1 = "su") := by
  have h := C6_secret_materializer c6spec c6secret
  exact ⟨h.2.2.1, fun kv hkv => h.2.2.2.2.1 kv hkv⟩

/-- Claim C2: an EmptyDir volume generates a host path volume whose path
is the join of /tmp, drone, the specification namespace and the volume
UID; a HostPath volume uses the declared host path verbatim; in both
cases the host path type is directory or create; and a resolving step
mount of such a volume places exactly this volume in the volume list. -/
theorem C2_host_path_resolution (spec : engine.Spec) (vol : engine.Volume) :
    (∀ ed, vol.emptyDir = some ed →
      kube.toHostPathVolume spec vol =
        { name := vol.metadata.uid,
          hostPath := some
            { path := golib.goFilepathJoin
                ["/tmp", "drone", spec.metadata.ns, vol.metadata.uid],
              type := some "DirectoryOrCreate" } }) ∧
    (∀ hp, vol.emptyDir = none → vol.hostPath = some hp →
      kube.toHostPathVolume spec vol =
        { name := vol.metadata.uid,
          hostPath := some { path := hp.path, type := some "DirectoryOrCreate" } }) ∧
    (∀ (step : engine.Step) (mount : engine.VolumeMount), mount ∈ step.volumes →
      engine.LookupVolume spec mount.name = some vol →
      (vol.emptyDir.isSome ∨ vol.hostPath.isSome) →
      kube.toHostPathVolume spec vol ∈ kube.toVolumes spec step) := by
  refine ⟨?_, ?_, ?_⟩
  · intro ed hed
    simp [kube.toHostPathVolume, hed]
  · intro hp hed hhp
    simp [kube.toHostPathVolume, hed, hhp]
  · intro step mount hm hlook hor
    unfold kube.toVolumes
    refine List.mem_flatMap.mpr ⟨mount, hm, ?_⟩
    rw [hlook]
    simp only [if_pos hor]
    exact List.mem_singleton.mpr rfl

/-- Witness for C2: namespace ns1 with volume UID vol-abc yields the path
/tmp/drone/ns1/vol-abc, and a declared host path passes through
verbatim. -/
theorem C2_witness :
    c2vol.emptyDir = some {} ∧
    kube.toHostPathVolume c2spec c2vol =
      { name := "vol-abc",
        hostPath := some
          { path := "/tmp/drone/ns1/vol-abc", type := some "DirectoryOrCreate" } } ∧
    kube.toHostPathVolume c2spec c2hvol =
      { name := "vol-h",
        hostPath := some { path := "/data/host", type := some "DirectoryOrCreate" } } := by
  refine ⟨rfl, ?_, ?_⟩
  · have h := (C2_host_path_resolution c2spec c2vol).1 {} rfl
    exact h.trans (by decide)
  · exact (C2_host_path_resolution c2spec c2hvol).2.1 { path := "/data/host" } rfl rfl

/-- Claim C10: per resolving Secret typed volume the mount builder emits
one mount per declared item with no lookup of the item secret, while the
volume builder emits volumes only for resolving items; on the concrete
input below the assembled pod carries a volume mount whose name appears
in no entry of the pod volume list. -/
theorem C10_dangling_mount :
    (∀ (spec : engine.Spec) (vol : engine.Volume)
       (vsec : engine.VolumeSecretSource) (step : engine.Step)
       (mount : engine.VolumeMount),
      vol.secret = some vsec → step.volumes = [mount] →
      engine.LookupVolume spec mount.name = some vol →
      (kube.toVolumeMounts spec step).length = vsec.items.length) ∧
    engine.LookupVolume c10spec "vol1" = some c10vol ∧
    engine.LookupSecret c10spec "vol1-sec1-k1" = none ∧
    kube.toVolumeMounts c10spec c10step =
      [{ name := "vu1-k1", mountPath := "/mnt/p1", subPath := "p1" }] ∧
    kube.toSecretVolumes c10spec c10vol = [] ∧
    ((kube.toPod c10spec c10step).spec.containers.any (fun c =>
      c.volumeMounts.any (fun m =>
        (kube.toPod c10spec c10step).spec.volumes.all
          (fun v => v.name != m.name)))) = true := by
  refine ⟨?_, by decide, by decide, by decide, by decide, by decide⟩
  intro spec vol vsec step mount hsec hstep hlook
  simp [kube.toVolumeMounts, hstep, hlook, hsec]

/-- Witness for C10 at the concrete dangling input. -/
theorem C10_witness :
    c10vol.secret.isSome ∧ (kube.toVolumeMounts c10spec c10step).length = 1 :=
  ⟨by decide, C10_dangling_mount.1 c10spec c10vol
    { name := "sec1", items := [{ key := "k1", path := "p1" }] }
    c10step c10mount rfl rfl (by decide)⟩

/-- Claim C1 as stated is false at this input: the volume resolves on the
step and declares one item, but the item secret lookup fails, so zero
cluster volumes are produced while one volume mount still is. -/
theorem C1_counterexample :
    engine.LookupVolume c1spec "vol1" = some c1vol ∧
    c1vol.secret = some { name := "sec1", items := [{ key := "k1", path := "p1" }] } ∧
    (kube.toSecretVolumes c1spec c1vol).length = 0 ∧
    (kube.toVolumes c1spec c1step).length = 0 ∧
    (kube.toVolumeMounts c1spec c1step).length = 1 := by
  decide

/-- Claim C1 amended: for a Secret typed volume that resolves on a step,
one volume mount is emitted per declared item at the declared mount path
joined with the item path, and one cluster volume is emitted per item
whose computed lookup name resolves, named from the volume UID and the
item key and referencing the looked up secret UID as both secret name and
sole projected key; when every item resolves the counts both equal the
number of items. -/
theorem C1_secret_volume_fanout (spec : engine.Spec) (vol : engine.Volume)
    (vsec : engine.VolumeSecretSource) (step : engine.Step)
    (mount : engine.VolumeMount)
    (hsec : vol.secret = some vsec)
    (hstep : step.volumes = [mount])
    (hlook : engine.LookupVolume spec mount.name = some vol)
    (hall : ∀ item ∈ vsec.items,
      (engine.LookupSecret spec
        (vol.metadata.name ++ "-" ++ vsec.name ++ "-" ++ item.key)).isSome) :
    (kube.toSecretVolumes spec vol).length = vsec.items.length ∧
    (∀ item ∈ vsec.items, ∀ sec,
      engine.LookupSecret spec
        (vol.metadata.name ++ "-" ++ vsec.name ++ "-" ++ item.key) = some sec →
      ({ name := vol.metadata.uid ++ "-" ++ item.key,
         secret := some
           { secretName := sec.metadata.uid,
             items := [{ key := sec.metadata.uid, path := item.path,
                         mode := item.mode }] } } : v1.Volume)
        ∈ kube.toSecretVolumes spec vol) ∧
    kube.toVolumeMounts spec step = vsec.items.map (fun item =>
      ({ name := vol.metadata.uid ++ "-" ++ item.key,
         mountPath := mount.path ++ "/" ++ item.path,
         subPath := item.path } : v1.VolumeMount)) ∧
    (kube.toVolumeMounts spec step).length = vsec.items.length := by
  have hmounts : kube.toVolumeMounts spec step = vsec.items.map (fun item =>
      ({ name := vol.metadata.uid ++ "-" ++ item.key,
         mountPath := mount.path ++ "/" ++ item.path,
         subPath := item.path } : v1.VolumeMount)) := by
    simp [kube.toVolumeMounts, hstep, hlook, hsec]
  refine ⟨?_, ?_, hmounts, by rw [hmounts]; simp⟩
  · unfold kube.toSecretVolumes
    rw [hsec]
    refine length_filterMap_of_all_some _ _ (fun item hi => ?_)
    have hx := hall item hi
    cases hL : engine.LookupSecret spec
        (vol.metadata.name ++ "-" ++ vsec.name ++ "-" ++ item.key) with
    | none => rw [hL] at hx; simp at hx
    | some sec => simp [hL]
  · intro item hi sec hsecL
    unfold kube.toSecretVolumes
    rw [hsec]
    exact List.mem_filterMap.mpr ⟨item, hi, by simp [hsecL]⟩

/-- Witness for C1 at a fully resolving three item volume: three cluster
volumes and three mounts. -/
theorem C1_witness :
    (∀ item ∈ c1wvsec.items,
      (engine.LookupSecret c1wspec
        (c1wvol.metadata.name ++ "-" ++ c1wvsec.name ++ "-" ++ item.key)).isSome) ∧
    (kube.toSecretVolumes c1wspec c1wvol).length = 3 ∧
    (kube.toVolumeMounts c1wspec c1wstep).length = 3 := by
  have h := C1_secret_volume_fanout c1wspec c1wvol c1wvsec c1wstep c1wmount
    rfl rfl (by decide) (by decide)
  exact ⟨by decide, h.1.trans (by decide), h.2.2.2.trans (by decide)⟩

/-- Claim C3: a dangling reference in any of the three mount lists is
silently omitted: deleting the dangling entry from the step leaves every
corresponding output unchanged, so the translation (whose functions are
total and have no error result) succeeds and merely skips the entry. -/
theorem C3_silent_skip (spec : engine.Spec) (step : engine.Step) :
    (∀ (sv : engine.SecretVar) (pre post : List engine.SecretVar),
      step.secrets = pre ++ sv :: post →
      engine.LookupSecret spec sv.name = none →
      kube.toEnv spec step = kube.toEnv spec { step with secrets := pre ++ post }) ∧
    (∀ (fm : engine.FileMount) (pre post : List engine.FileMount),
      step.files = pre ++ fm :: post →
      engine.LookupFile spec fm.name = none →
      kube.toConfigVolumes spec step =
        kube.toConfigVolumes spec { step with files := pre ++ post } ∧
      kube.toConfigMounts spec step =
        kube.toConfigMounts spec { step with files := pre ++ post }) ∧
    (∀ (vm : engine.VolumeMount) (pre post : List engine.VolumeMount),
      step.volumes = pre ++ vm :: post →
      engine.LookupVolume spec vm.name = none →
      kube.toVolumes spec step =
        kube.toVolumes spec { step with volumes := pre ++ post } ∧
      kube.toVolumeMounts spec step =
        kube.toVolumeMounts spec { step with volumes := pre ++ post }) := by
  refine ⟨?_, ?_, ?_⟩
  · intro sv pre post h hlook
    simp [kube.toEnv, h, List.filterMap_append, hlook]
  · intro fm pre post h hlook
    constructor <;>
      simp [kube.toConfigVolumes, kube.toConfigMounts, h,
        List.filterMap_append, hlook]
  · intro vm pre post h hlook
    constructor <;>
      simp [kube.toVolumes, kube.toVolumeMounts, h,
        List.flatMap_append, hlook]

/-- Witness for C3: with an empty specification, the dangling secret, file
and volume mounts of the step change nothing. -/
theorem C3_witness :
    engine.LookupSecret c3spec "nosec" = none ∧
    engine.LookupFile c3spec "nofile" = none ∧
    engine.LookupVolume c3spec "novol" = none ∧
    kube.toEnv c3spec c3step = kube.toEnv c3spec { c3step with secrets := [] } ∧
    kube.toConfigVolumes c3spec c3step =
      kube.toConfigVolumes c3spec { c3step with files := [] } ∧
    kube.toVolumes c3spec c3step =
      kube.toVolumes c3spec { c3step with volumes := [] } := by
  have h := C3_silent_skip c3spec c3step
  refine ⟨by decide, by decide, by decide, ?_, ?_, ?_⟩
  · exact h.1 { name := "nosec", env := "E" } [] [] rfl (by decide)
  · exact (h.2.1 { name := "nofile", path := "/a/b" } [] [] rfl (by decide)).1
  · exact (h.2.2 { name := "novol", path := "/v" } [] [] rfl (by decide)).1

/-- Characterization of the two entry quantity list built by toResources:
a memory entry is present exactly when the memory value is positive, a
cpu entry exactly when the cpu value is positive, and no other keys
occur. -/
theorem resourceEntries_char (m c : Int) :
    (∀ q, ("memory", q) ∈
        ((if m > 0 then [("memory", v1.newQuantity m .binarySI)] else [])
          ++ (if c > 0 then [("cpu", v1.newMilliQuantity c .decimalSI)] else [])) ↔
      m > 0 ∧ q = v1.newQuantity m .binarySI) ∧
    (∀ q, ("cpu", q) ∈
        ((if m > 0 then [("memory", v1.newQuantity m .binarySI)] else [])
          ++ (if c > 0 then [("cpu", v1.newMilliQuantity c .decimalSI)] else [])) ↔
      c > 0 ∧ q = v1.newMilliQuantity c .decimalSI) ∧
    (∀ kv ∈
        ((if m > 0 then [("memory", v1.newQuantity m .binarySI)] else [])
          ++ (if c > 0 then [("cpu", v1.newMilliQuantity c .decimalSI)] else [])),
      kv.1 = "memory" ∨ kv.1 = "cpu") := by
  by_cases hm : m > 0 <;> by_cases hc : c > 0 <;>
    (simp [hm, hc, Prod.ext_iff]; try tauto)

/-- Claim C4: a resource quantity entry is emitted exactly when its
declared value is strictly positive, memory with binary scaling via a
whole unit quantity and cpu with decimal scaling via a milli quantity;
absent records yield absent maps. -/
theorem C4_resource_omission (step : engine.Step) :
    (step.resources = none → kube.toResources step = {}) ∧
    (∀ res, step.resources = some res →
      (res.limits = none → (kube.toResources step).limits = none) ∧
      (∀ lim, res.limits = some lim →
        ∃ l, (kube.toResources step).limits = some l ∧
          (∀ q, ("memory", q) ∈ l ↔
            lim.memory > 0 ∧ q = v1.newQuantity lim.memory .binarySI) ∧
          (∀ q, ("cpu", q) ∈ l ↔
            lim.cpu > 0 ∧ q = v1.newMilliQuantity lim.cpu .decimalSI) ∧
          (∀ kv ∈ l, kv.1 = "memory" ∨ kv.1 = "cpu")) ∧
      (res.requests = none → (kube.toResources step).requests = none) ∧
      (∀ req, res.requests = some req →
        ∃ l, (kube.toResources step).requests = some l ∧
          (∀ q, ("memory", q) ∈ l ↔
            req.memory > 0 ∧ q = v1.newQuantity req.memory .binarySI) ∧
          (∀ q, ("cpu", q) ∈ l ↔
            req.cpu > 0 ∧ q = v1.newMilliQuantity req.cpu .decimalSI) ∧
          (∀ kv ∈ l, kv.1 = "memory" ∨ kv.1 = "cpu"))) := by
  refine ⟨?_, ?_⟩
  · intro h
    simp [kube.toResources, h]
  · intro res hres
    refine ⟨?_, ?_, ?_, ?_⟩
    · intro h
      simp [kube.toResources, hres, h]
    · intro lim hlim
      exact ⟨_, by simp [kube.toResources, hres, hlim],
        (resourceEntries_char lim.memory lim.cpu).1,
        (resourceEntries_char lim.memory lim.cpu).2.1,
        (resourceEntries_char lim.memory lim.cpu).2.2⟩
    · intro h
      simp [kube.toResources, hres, h]
    · intro req hreq
      exact ⟨_, by simp [kube.toResources, hres, hreq],
        (resourceEntries_char req.memory req.cpu).1,
        (resourceEntries_char req.memory req.cpu).2.1,
        (resourceEntries_char req.memory req.cpu).2.2⟩

/-- Witness for C4: a zero memory limit with a cpu limit of 500 yields a
limits map holding only the cpu entry as a decimal milli quantity. -/
theorem C4_witness :
    c4step.resources = some { limits := some { cpu := 500, memory := 0 } } ∧
    (∃ l, (kube.toResources c4step).limits = some l ∧
      (∀ q, ("memory", q) ∈ l ↔
        (0 : Int) > 0 ∧ q = v1.newQuantity 0 .binarySI) ∧
      (∀ q, ("cpu", q) ∈ l ↔
        (500 : Int) > 0 ∧ q = v1.newMilliQuantity 500 .decimalSI) ∧
      (∀ kv ∈ l, kv.1 = "memory" ∨ kv.1 = "cpu")) ∧
    (kube.toResources c4step).limits =
      some [("cpu", v1.newMilliQuantity 500 .decimalSI)] :=
  ⟨rfl, ((C4_resource_omission c4step).2 _ rfl).2.1 _ rfl, by decide⟩

/-- Claim C5: the assembled environment list is the declared pairs minus
the reserved control key, then the synthetic deferred node name entry,
then one optional deferred secret reference per resolving secret mount
whose object name and data key are both the secret UID; the reserved key
never appears as a literal variable. -/
theorem C5_env_assembler (spec : engine.Spec) (step : engine.Step) :
    kube.toEnv spec step =
      ((step.envs.filter (fun kv => kv.1 ≠ kube.envAutomountServiceAccountToken)).map
        (fun kv => { name := kv.1, value := kv.2 }))
      ++ [{ name := "KUBERNETES_NODE",
            valueFrom := some { fieldRef := some { fieldPath := "spec.nodeName" } } }]
      ++ step.secrets.filterMap (fun sv =>
          (engine.LookupSecret spec sv.name).map (fun sec =>
            { name := sv.env,
              valueFrom := some
                { secretKeyRef := some
                    { localObjectReference := { name := sec.metadata.uid },
                      key := sec.metadata.uid,
                      optional := some true } } }))
    ∧ (∀ e ∈ kube.toEnv spec step, e.valueFrom = none →
        e.name ≠ kube.envAutomountServiceAccountToken) := by
  have hstruct : kube.toEnv spec step =
      ((step.envs.filter (fun kv => kv.1 ≠ kube.envAutomountServiceAccountToken)).map
        (fun kv => { name := kv.1, value := kv.2 }))
      ++ [{ name := "KUBERNETES_NODE",
            valueFrom := some { fieldRef := some { fieldPath := "spec.nodeName" } } }]
      ++ step.secrets.filterMap (fun sv =>
          (engine.LookupSecret spec sv.name).map (fun sec =>
            { name := sv.env,
              valueFrom := some
                { secretKeyRef := some
                    { localObjectReference := { name := sec.metadata.uid },
                      key := sec.metadata.uid,
                      optional := some true } } })) := by
    unfold kube.toEnv
    congr 1
    induction step.secrets with
    | nil => rfl
    | cons a t ih =>
      cases h : engine.LookupSecret spec a.name <;>
        simp [List.filterMap_cons, h, ih]
  refine ⟨hstruct, ?_⟩
  intro e he hnone
  rw [hstruct] at he
  rcases List.mem_append.mp he with h1 | h2
  · rcases List.mem_append.mp h1 with h3 | h4
    · obtain ⟨kv, hkv, hkve⟩ := List.mem_map.mp h3
      have := (List.mem_filter.mp hkv).2
      rw [← hkve]
      simpa using this
    · rw [List.mem_singleton.mp h4] at hnone
      simp at hnone
  · obtain ⟨sv, _, hsv⟩ := List.mem_filterMap.mp h2
    obtain ⟨sec, _, hfe⟩ := Option.map_eq_some'.mp hsv
    rw [← hfe] at hnone
    simp at hnone

/-- Witness for C5 at a concrete specification and step: the declared
pair survives as a literal, the reserved key is dropped, the node entry
and the optional secret reference follow. -/
theorem C5_witness :
    ({ name := "FOO", value := "bar" } : v1.EnvVar) ∈ kube.toEnv c5spec c5step ∧
    ({ name := "FOO", value := "bar" } : v1.EnvVar).valueFrom = none ∧
    ({ name := "FOO", value := "bar" } : v1.EnvVar).name ≠
      kube.envAutomountServiceAccountToken ∧
    kube.toEnv c5spec c5step =
      [{ name := "FOO", value := "bar" },
       { name := "KUBERNETES_NODE",
         valueFrom := some { fieldRef := some { fieldPath := "spec.nodeName" } } },
       { name := "SECRET_ENV",
         valueFrom := some
           { secretKeyRef := some
               { localObjectReference := { name := "su1" },
                 key := "su1",
                 optional := some true } } }] := by
  refine ⟨by decide, rfl, ?_, by decide⟩
  exact (C5_env_assembler c5spec c5step).2 _ (by decide) rfl

/-- Claim C7: a service is emitted exactly when the step declares at least
one port; each declared port in 32 bit range maps to a service port named
by the decimal string of the container port, with port the container port
and target port the host port when nonzero and the container port
otherwise; the service is cluster internal, selects pods by the fixed
step name label and is named by the sanitized step name. -/
theorem C7_service_emission (spec : engine.Spec) (step : engine.Step) :
    (kube.emitService spec step = none ↔ step.docker.ports = []) ∧
    (∀ svc, kube.emitService spec step = some svc →
      svc = kube.toService spec step) ∧
    (kube.toService spec step).spec.type = "ClusterIP" ∧
    (kube.toService spec step).spec.selector =
      [("io.drone.step.name", step.metadata.name)] ∧
    (kube.toService spec step).metadata.name = kube.toDNS step.metadata.name ∧
    ((∀ p ∈ step.docker.ports,
        -2147483648 ≤ p.port ∧ p.port < 2147483648 ∧
        -2147483648 ≤ p.host ∧ p.host < 2147483648) →
      (kube.toService spec step).spec.ports = step.docker.ports.map
        (fun (p : engine.Port) =>
          ({ name := toString p.port,
             port := p.port,
             targetPort := { intVal := if p.host = 0 then p.port else p.host } }
            : v1.ServicePort))) := by
  refine ⟨?_, ?_, rfl, rfl, rfl, ?_⟩
  · unfold kube.emitService
    cases step.docker.ports <;> simp
  · intro svc h
    unfold kube.emitService at h
    by_cases hp : step.docker.ports.isEmpty <;> simp [hp] at h
    exact h.symm
  · intro hr
    have hports : (kube.toService spec step).spec.ports =
        step.docker.ports.map (fun (p : engine.Port) =>
          ({ name := toString p.port,
             port := golib.toInt32 p.port,
             targetPort :=
               { intVal := golib.toInt32 (if p.host == 0 then p.port else p.host) } }
            : v1.ServicePort)) := rfl
    rw [hports]
    refine List.map_congr_left (fun p hp => ?_)
    obtain ⟨h1, h2, h3, h4⟩ := hr p hp
    by_cases h0 : p.host = 0
    · simp [h0, toInt32_eq_self p.port h1 h2]
    · simp [h0, toInt32_eq_self p.port h1 h2, toInt32_eq_self p.host h3 h4]

/-- Witness for C7: no ports gives no service; one port 8080 with host 0
gives one service port targeting 8080, on a service named by the
sanitized step name. -/
theorem C7_witness :
    kube.emitService c7spec c7step0 = none ∧
    kube.emitService c7spec c7step = some (kube.toService c7spec c7step) ∧
    (kube.toService c7spec c7step).spec.ports =
      [{ name := "8080", port := 8080, targetPort := { intVal := 8080 } }] ∧
    (kube.toService c7spec c7step).metadata.name = "my-step" := by
  have h := C7_service_emission c7spec c7step
  refine ⟨by decide, by decide, ?_, by decide⟩
  exact (h.2.2.2.2.2 (by decide)).trans (by decide)

/-- Claim C8: the assembled pod carries the fixed pull secret reference
exactly when the specification declares registry credentials, computes
the automount flag from the reserved key with false for an absent key or
an unparsable value, has restart policy never and exactly one
container. -/
theorem C8_pod_assembly (spec : engine.Spec) (step : engine.Step) :
    ((kube.toPod spec step).spec.imagePullSecrets =
        [{ name := "docker-auth-config" }] ↔ spec.docker.auths ≠ []) ∧
    ((kube.toPod spec step).spec.imagePullSecrets = [] ↔
      spec.docker.auths = []) ∧
    (kube.toPod spec step).spec.restartPolicy = "Never" ∧
    (kube.toPod spec step).spec.containers.length = 1 ∧
    (step.envs.find? (fun kv => kv.1 == kube.envAutomountServiceAccountToken) = none →
      (kube.toPod spec step).spec.automountServiceAccountToken = some false) ∧
    (∀ kv,
      step.envs.find? (fun kv => kv.1 == kube.envAutomountServiceAccountToken) = some kv →
      (kube.toPod spec step).spec.automountServiceAccountToken =
        some (golib.parseBool kv.2)) ∧
    (∀ s, s ∉ ["1", "t", "T", "true", "TRUE", "True"] →
      golib.parseBool s = false) := by
  have hps : (kube.toPod spec step).spec.imagePullSecrets =
      (if spec.docker.auths.length > 0 then
        [({ name := "docker-auth-config" } : v1.LocalObjectReference)] else []) := rfl
  have ham : (kube.toPod spec step).spec.automountServiceAccountToken =
      some (match
          step.envs.find? (fun kv => kv.1 == kube.envAutomountServiceAccountToken) with
        | some kv => golib.parseBool kv.2
        | none => false) := rfl
  refine ⟨?_, ?_, rfl, rfl, ?_, ?_, ?_⟩
  · rw [hps]
    cases h : spec.docker.auths <;> simp
  · rw [hps]
    cases h : spec.docker.auths <;> simp
  · intro h
    rw [ham, h]
  · intro kv h
    rw [ham, h]
  · intro s hs
    have : golib.parseBool s =
        (["1", "t", "T", "true", "TRUE", "True"].contains s) := rfl
    rw [this]
    simpa using hs

/-- Witness for C8: declared registry credentials yield the fixed pull
secret reference, and an unparsable reserved key value yields an
automount flag of false. -/
theorem C8_witness :
    c8spec.docker.auths ≠ [] ∧
    (kube.toPod c8spec c8step).spec.imagePullSecrets =
      [{ name := "docker-auth-config" }] ∧
    c8step.envs.find? (fun kv => kv.1 == kube.envAutomountServiceAccountToken) =
      some ("PLUGIN_AUTOMOUNTSERVICEACCOUNTTOKEN", "garbage") ∧
    (kube.toPod c8spec c8step).spec.automountServiceAccountToken = some false := by
  have h := C8_pod_assembly c8spec c8step
  refine ⟨by decide, h.1.mpr (by decide), by decide, ?_⟩
  exact (h.2.2.2.2.2.1 ("PLUGIN_AUTOMOUNTSERVICEACCOUNTTOKEN", "garbage")
    (by decide)).trans (by decide)

/-- Claim C9: each resolving file mount yields exactly one config volume
named by the file UID, sourced from a config object of the same name,
with a single projected item mapping the UID key to the base name of the
declared mount path under the declared mode, and one mount targeting the
directory of the declared mount path. -/
theorem C9_config_volumes (spec : engine.Spec) (step : engine.Step) :
    (∀ mount ∈ step.files, ∀ file,
      engine.LookupFile spec mount.name = some file →
      -2147483648 ≤ mount.mode → mount.mode < 2147483648 →
      ({ name := file.metadata.uid,
         configMap := some
           { localObjectReference := { name := file.metadata.uid },
             optional := some false,
             items := [{ key := file.metadata.uid,
                         path := golib.goPathBase mount.path,
                         mode := some mount.mode }] } } : v1.Volume)
        ∈ kube.toConfigVolumes spec step ∧
      ({ name := file.metadata.uid,
         mountPath := golib.goPathDir mount.path } : v1.VolumeMount)
        ∈ kube.toConfigMounts spec step) ∧
    (kube.toConfigVolumes spec step).length =
      (step.files.filter (fun m => (engine.LookupFile spec m.name).isSome)).length ∧
    (kube.toConfigMounts spec step).length =
      (step.files.filter (fun m => (engine.LookupFile spec m.name).isSome)).length := by
  refine ⟨?_, ?_, ?_⟩
  · intro mount hm file hf h1 h2
    constructor
    · unfold kube.toConfigVolumes
      refine List.mem_filterMap.mpr ⟨mount, hm, ?_⟩
      simp [hf, toInt32_eq_self mount.mode h1 h2]
    · unfold kube.toConfigMounts
      exact List.mem_filterMap.mpr ⟨mount, hm, by simp [hf]⟩
  · unfold kube.toConfigVolumes
    rw [length_filterMap_eq_length_filter]
    congr 1
    apply List.filter_congr
    intro m _
    cases engine.LookupFile spec m.name <;> rfl
  · unfold kube.toConfigMounts
    rw [length_filterMap_eq_length_filter]
    congr 1
    apply List.filter_congr
    intro m _
    cases engine.LookupFile spec m.name <;> rfl

/-- Witness for C9: mount path /etc/conf/app.conf projects the UID key
onto app.conf while the mount targets /etc/conf. -/
theorem C9_witness :
    engine.LookupFile c9spec "f1" = some c9file ∧
    ({ name := "fu1",
       configMap := some
         { localObjectReference := { name := "fu1" },
           optional := some false,
           items := [{ key := "fu1", path := "app.conf", mode := some 420 }] } }
      : v1.Volume) ∈ kube.toConfigVolumes c9spec c9step ∧
    ({ name := "fu1", mountPath := "/etc/conf" } : v1.VolumeMount)
      ∈ kube.toConfigMounts c9spec c9step ∧
    (kube.toConfigVolumes c9spec c9step).length = 1 := by
  have h := (C9_config_volumes c9spec c9step).1 c9mount (by decide) c9file
    (by decide) (by decide) (by decide)
  have e1 : golib.goPathBase c9mount.path = "app.conf" := by decide
  have e2 : golib.goPathDir c9mount.path = "/etc/conf" := by decide
  refine ⟨by decide, ?_, ?_, by decide⟩
  · have := h.1
    rw [e1] at this
    exact this
  · have := h.2
    rw [e2] at this
    exact this
